import Mathlib

/-!
Verification development for the PreGrade API gateway (Node/TypeScript).

The definitions below are a shallow embedding of the gateway control logic:
tenant authentication and key validation (gateway-node/src/tenantAuth.ts and
the auth preHandler), the fixed-window rate limiter, the deterministic
request-identity derivation (requestIdFromImageBytes), the uploads handler
validations, the synchronous analyze proxy (pythonProxy.ts) and the
asynchronous job orchestrator (jobs.ts with its route handlers).

Machine integers are modelled as Nat with explicit reduction mod 2^32 where
the source does 32-bit arithmetic (SHA-256); JSON bodies are modelled as
structures with Option fields for the loosely-typed inputs; the external
HTTP calls (engine fetch, Supabase rows) are modelled as explicit inputs.
-/

set_option maxRecDepth 8000

namespace Pregrade

/-! ## Byte and hex utilities -/

/-- UTF-8 encoding of one character (RFC 3629), as the byte list
Node produces for `Buffer.from(string, "utf8")`. -/
def utf8EncodeChar (c : Char) : List Nat :=
  let n := c.toNat
  if n < 128 then [n]
  else if n < 2048 then [192 + n / 64, 128 + n % 64]
  else if n < 65536 then [224 + n / 4096, 128 + (n / 64) % 64, 128 + n % 64]
  else [240 + n / 262144, 128 + (n / 4096) % 64, 128 + (n / 64) % 64, 128 + n % 64]

/-- UTF-8 bytes of a string. -/
def utf8Bytes (s : String) : List Nat :=
  (s.data.map utf8EncodeChar).flatten

/-- Lower-case hex digit for a value below 16. -/
def hexDigitChar (n : Nat) : Char :=
  if n < 10 then Char.ofNat (48 + n) else Char.ofNat (87 + n)

/-- Two lower-case hex digits of one byte. -/
def byteHex (b : Nat) : List Char :=
  [hexDigitChar (b / 16), hexDigitChar (b % 16)]

/-- Lower-case hex rendering of a byte list (crypto digest("hex")). -/
def bytesToHex (bs : List Nat) : String :=
  String.mk ((bs.map byteHex).flatten)

/-- Big-endian byte rendering of `n` on `k` bytes. -/
def beBytes : Nat → Nat → List Nat
  | 0, _ => []
  | k + 1, n => beBytes k (n / 256) ++ [n % 256]

/-! ## SHA-256 (FIPS 180-4), the digest crypto.createHash("sha256") computes -/

/-- 2^32, the modulus of the 32-bit word arithmetic. -/
def w32 : Nat := 4294967296

/-- Right rotation of a 32-bit word. -/
def rotr32 (n x : Nat) : Nat :=
  ((x >>> n) ||| (x <<< (32 - n))) % w32

def smallSigma0 (x : Nat) : Nat := (rotr32 7 x) ^^^ (rotr32 18 x) ^^^ (x >>> 3)

def smallSigma1 (x : Nat) : Nat := (rotr32 17 x) ^^^ (rotr32 19 x) ^^^ (x >>> 10)

def bigSigma0 (x : Nat) : Nat := (rotr32 2 x) ^^^ (rotr32 13 x) ^^^ (rotr32 22 x)

def bigSigma1 (x : Nat) : Nat := (rotr32 6 x) ^^^ (rotr32 11 x) ^^^ (rotr32 25 x)

/-- The 64 SHA-256 round constants of FIPS 180-4 (the fractional parts of
the cube roots of the first 64 primes), written in decimal. -/
def sha256K : List Nat :=
  [1116352408, 1899447441, 3049323471, 3921009573, 961987163, 1508970993,
   2453635748, 2870763221, 3624381080, 310598401, 607225278, 1426881987,
   1925078388, 2162078206, 2614888103, 3248222580, 3835390401, 4022224774,
   264347078, 604807628, 770255983, 1249150122, 1555081692, 1996064986,
   2554220882, 2821834349, 2952996808, 3210313671, 3336571891, 3584528711,
   113926993, 338241895, 666307205, 773529912, 1294757372, 1396182291,
   1695183700, 1986661051, 2177026350, 2456956037, 2730485921, 2820302411,
   3259730800, 3345764771, 3516065817, 3600352804, 4094571909, 275423344,
   430227734, 506948616, 659060556, 883997877, 958139571, 1322822218,
   1537002063, 1747873779, 1955562222, 2024104815, 2227730452, 2361852424,
   2428436474, 2756734187, 3204031479, 3329325298]

/-- The initial SHA-256 hash value of FIPS 180-4, written in decimal. -/
def sha256H0 : List Nat :=
  [1779033703, 3144134277, 1013904242, 2773480762,
   1359893119, 2600822924, 528734635, 1541459225]

/-- Padded message: the data, 0x80, zeros to 56 mod 64, and the 64-bit
big-endian bit length. -/
def sha256Pad (msg : List Nat) : List Nat :=
  let L := msg.length
  let padZeros := (55 + 64 - (L % 64)) % 64
  msg ++ [128] ++ List.replicate padZeros 0 ++ beBytes 8 (L * 8)

/-- Big-endian 32-bit words of a byte list (groups of 4). -/
def beWords : List Nat → List Nat
  | b0 :: b1 :: b2 :: b3 :: rest =>
    (((b0 * 256 + b1) * 256 + b2) * 256 + b3) :: beWords rest
  | _ => []

/-- The word list cut into blocks of 16 words (structurally recursive so
it reduces in the kernel; the padded input is always a multiple of 16
words, so the partial-block case never fires on SHA-256 inputs). -/
def chunksOf16 : List Nat → List (List Nat)
  | a1 :: a2 :: a3 :: a4 :: a5 :: a6 :: a7 :: a8 ::
      a9 :: a10 :: a11 :: a12 :: a13 :: a14 :: a15 :: a16 :: rest =>
    [a1, a2, a3, a4, a5, a6, a7, a8, a9, a10, a11, a12, a13, a14, a15, a16]
      :: chunksOf16 rest
  | [] => []
  | l => [l]

/-- The message schedule: `k` extension steps appended to the 16 block words. -/
def extendSchedule (w : List Nat) : Nat → List Nat
  | 0 => w
  | k + 1 =>
    let prev := extendSchedule w k
    let n := prev.length
    let next := (smallSigma1 (prev.getD (n - 2) 0) + prev.getD (n - 7) 0 +
      smallSigma0 (prev.getD (n - 15) 0) + prev.getD (n - 16) 0) % w32
    prev ++ [next]

/-- The eight working variables of the compression loop. -/
structure Sha256State where
  a : Nat
  b : Nat
  c : Nat
  d : Nat
  e : Nat
  f : Nat
  g : Nat
  h : Nat
deriving DecidableEq, Repr

/-- One compression round with round constant `kt` and schedule word `wt`. -/
def sha256Round (s : Sha256State) (kt wt : Nat) : Sha256State :=
  let ch := (s.e &&& s.f) ^^^ ((s.e ^^^ 4294967295) &&& s.g)
  let maj := (s.a &&& s.b) ^^^ (s.a &&& s.c) ^^^ (s.b &&& s.c)
  let t1 := (s.h + bigSigma1 s.e + ch + kt + wt) % w32
  let t2 := (bigSigma0 s.a + maj) % w32
  ⟨(t1 + t2) % w32, s.a, s.b, s.c, (s.d + t1) % w32, s.e, s.f, s.g⟩

/-- Compression of one 16-word block into the running hash. -/
def sha256Compress (hs : List Nat) (block : List Nat) : List Nat :=
  let w := extendSchedule block 48
  let init : Sha256State :=
    ⟨hs.getD 0 0, hs.getD 1 0, hs.getD 2 0, hs.getD 3 0,
     hs.getD 4 0, hs.getD 5 0, hs.getD 6 0, hs.getD 7 0⟩
  let fin := (sha256K.zip w).foldl (fun s kw => sha256Round s kw.1 kw.2) init
  [(hs.getD 0 0 + fin.a) % w32, (hs.getD 1 0 + fin.b) % w32,
   (hs.getD 2 0 + fin.c) % w32, (hs.getD 3 0 + fin.d) % w32,
   (hs.getD 4 0 + fin.e) % w32, (hs.getD 5 0 + fin.f) % w32,
   (hs.getD 6 0 + fin.g) % w32, (hs.getD 7 0 + fin.h) % w32]

/-- SHA-256 digest (32 bytes) of a byte list. -/
def sha256 (msg : List Nat) : List Nat :=
  let blocks := chunksOf16 (beWords (sha256Pad msg))
  let hs := blocks.foldl sha256Compress sha256H0
  (hs.map (beBytes 4)).flatten

/-- sha256Hex of gateway-node/src/index.ts over raw bytes:
crypto.createHash("sha256").update(input).digest("hex"). -/
def sha256Hex (input : List Nat) : String :=
  bytesToHex (sha256 input)

/-- sha256Hex applied to a string input (hashed over its UTF-8 bytes). -/
def sha256HexOfString (s : String) : String :=
  sha256Hex (utf8Bytes s)

/-! ## Contracts (gateway-node/src/contracts.ts) -/

/-- The stable error codes of the partner contract (ErrorCode). -/
inductive ErrCode
  | MISSING_API_KEY
  | INVALID_API_KEY
  | RATE_LIMIT_EXCEEDED
  | INVALID_REQUEST_FORMAT
  | MISSING_REQUIRED_FIELD
  | INVALID_FIELD_VALUE
  | INVALID_IMAGE_FORMAT
  | IMAGE_TOO_LARGE
  | UNSUPPORTED_CARD_TYPE
  | ROUTE_NOT_FOUND
  | INTERNAL_ERROR
  | SERVICE_UNAVAILABLE
  | NOT_IMPLEMENTED
deriving DecidableEq, Repr

/-! ## Base64 decoding (Buffer.from(data, "base64"))

Node's base64 decoder is lenient: characters outside the base64 alphabet
(padding "=" included) are skipped, then complete and trailing partial
groups of sextets are combined into bytes; it never throws on a string. -/

/-- The sextet value of a base64 alphabet character (base64 and base64url),
none for any other character. -/
def b64Val (c : Char) : Option Nat :=
  if 65 ≤ c.toNat ∧ c.toNat ≤ 90 then some (c.toNat - 65)
  else if 97 ≤ c.toNat ∧ c.toNat ≤ 122 then some (c.toNat - 71)
  else if 48 ≤ c.toNat ∧ c.toNat ≤ 57 then some (c.toNat + 4)
  else if c = '+' ∨ c = '-' then some 62
  else if c = '/' ∨ c = '_' then some 63
  else none

/-- Bytes from a sextet list: groups of 4 sextets give 3 bytes; a trailing
group of 3 gives 2 bytes, of 2 gives 1 byte, and a lone sextet is dropped. -/
def b64Groups : List Nat → List Nat
  | a :: b :: c :: d :: rest =>
    (a * 4 + b / 16) :: ((b % 16) * 16 + c / 4) :: ((c % 4) * 64 + d) :: b64Groups rest
  | [a, b] => [a * 4 + b / 16]
  | [a, b, c] => [a * 4 + b / 16, (b % 16) * 16 + c / 4]
  | _ => []

/-- Buffer.from(s, "base64") as a byte list. -/
def nodeBase64Decode (s : String) : List Nat :=
  b64Groups (s.data.filterMap b64Val)

/-! ## Deterministic request identity (gateway-node/src/index.ts)

requestIdFromImageBytes mirrors the Python handler:
request_id = sha256(image_bytes)[:24] + "_" + sha256("pokemon")[:8]. -/

/-- requestIdFromImageBytes of gateway-node/src/index.ts. -/
def requestIdFromImageBytes (imageBytes : List Nat) : String :=
  let a := (sha256Hex imageBytes).take 24
  let b := (sha256HexOfString "pokemon").take 8
  a ++ "_" ++ b

/-! ## POST /v1/analyze (the gateway-computed request identity path)

The handler validates the loosely-typed JSON body, decodes the inline
base64 front image, rejects an empty decode, and builds the response
envelope whose request_id is requestIdFromImageBytes of the decoded
bytes. A client_reference of non-string JSON type is rejected with
INVALID_FIELD_VALUE in the source; the modelled body type admits only
absent-or-string client_reference, so that branch has no model state. -/

/-- front_image / back_image value: `{encoding, data}` with both fields
present as strings (other JSON shapes fall under the absent case of the
surrounding Option in the handler checks). -/
structure ImageRef where
  encoding : String
  data : String
deriving DecidableEq, Repr

/-- The analyze/jobs request body shape, loosely typed as received. -/
structure AnalyzeBody where
  card_type : Option String
  front_image : Option ImageRef
  client_reference : Option String
deriving DecidableEq, Repr

/-- Outcome of the analyze handler: an error envelope, or the stub
response envelope carrying the derived request_id. -/
inductive AnalyzeOutcome
  | errorResp (httpStatus : Nat) (code : ErrCode)
  | stubResp (httpStatus : Nat) (request_id : String)
deriving DecidableEq, Repr

/-- The decoded front-image byte sequence a body submits (empty when no
front image is given). -/
def decodedFront (b : AnalyzeBody) : List Nat :=
  nodeBase64Decode ((b.front_image.map (fun fi => fi.data)).getD "")

/-- POST /v1/analyze handler (gateway-computed identity): validation
cascade, base64 decode, empty-image rejection, then the 501 stub envelope
with request_id = requestIdFromImageBytes(imageBytes). -/
def analyzeHandler (body : Option AnalyzeBody) : AnalyzeOutcome :=
  match body with
  | none => .errorResp 400 .INVALID_REQUEST_FORMAT
  | some p =>
    if p.card_type ≠ some "pokemon" then .errorResp 400 .UNSUPPORTED_CARD_TYPE
    else
      match p.front_image with
      | none => .errorResp 400 .MISSING_REQUIRED_FIELD
      | some fi =>
        if fi.encoding ≠ "base64" then .errorResp 400 .MISSING_REQUIRED_FIELD
        else
          let imageBytes := nodeBase64Decode fi.data
          if imageBytes.length = 0 then .errorResp 400 .INVALID_IMAGE_FORMAT
          else .stubResp 501 (requestIdFromImageBytes imageBytes)

/-! ## Tenant authentication (tenantAuth.ts and the auth preHandler)

The environment configuration and the api_keys rows reached through
Supabase are explicit inputs. The api_keys table declares key_hash as
unique, so at most one stored row carries a given hash; the query
(.eq key_hash, .limit 1, .maybeSingle) is the first matching row. -/

/-- A row of the api_keys table (id, tenant_id, key_hash, revoked_at). -/
structure ApiKeyRow where
  id : String
  tenant_id : String
  key_hash : String
  revoked_at : Option String
deriving DecidableEq, Repr

/-- The environment variables the auth path reads, each already trimmed
with empty collapsed to none, and PREGRADE_API_KEYS already split into
its trimmed non-empty entries. -/
structure AuthEnv where
  supabaseUrl : Option String
  supabaseServiceRoleKey : Option String
  envApiKeys : List String
  apiKeyHashSalt : Option String
deriving DecidableEq, Repr

/-- useSupabaseAuth: both SUPABASE_URL and SUPABASE_SERVICE_ROLE_KEY set. -/
def useSupabaseAuth (env : AuthEnv) : Bool :=
  env.supabaseUrl.isSome && env.supabaseServiceRoleKey.isSome

/-- requireApiKey: Supabase auth or env-based keys configured. -/
def requireApiKey (env : AuthEnv) : Bool :=
  useSupabaseAuth env || !env.envApiKeys.isEmpty

/-- hashApiKey: sha256 over "salt:apiKey" with the dev fallback salt. -/
def hashApiKey (salt : Option String) (apiKey : String) : String :=
  sha256HexOfString ((salt.getD "pregrade_dev_salt_change_me") ++ ":" ++ apiKey)

/-- TenantAuthResult of tenantAuth.ts. -/
inductive TenantAuthResult
  | ok (tenantId : String) (apiKeyId : String)
  | missing
  | invalid
  | misconfigured
deriving DecidableEq, Repr

/-- validateApiKey: misconfigured without Supabase settings; otherwise the
first api_keys row whose key_hash equals the computed hash decides:
no row is invalid, a revoked row is invalid, else authenticated. -/
def validateApiKey (env : AuthEnv) (store : List ApiKeyRow) (apiKey : String) :
    TenantAuthResult :=
  if env.supabaseUrl.isNone || env.supabaseServiceRoleKey.isNone then .misconfigured
  else
    match store.find? (fun r => r.key_hash == hashApiKey env.apiKeyHashSalt apiKey) with
    | none => .invalid
    | some r => if r.revoked_at.isSome then .invalid else .ok r.tenant_id r.id

/-- The x-api-key header as Node delivers it: absent, a single value, or
an array of values for a repeated header. -/
inductive HeaderValue
  | absent
  | one (s : String)
  | many (l : List String)
deriving DecidableEq, Repr

/-- String.prototype.trim(): surrounding whitespace dropped on both ends
(structurally recursive so it evaluates; Lean's own String.trim is
defined by well-founded recursion over byte positions). -/
def jsTrim (s : String) : String :=
  String.mk (((s.data.dropWhile Char.isWhitespace).reverse.dropWhile
    Char.isWhitespace).reverse)

/-- apiKeyFromHeader: first value of an array, then null for a non-string
or blank-after-trim value, else the trimmed key. -/
def apiKeyFromHeader (h : HeaderValue) : Option String :=
  match h with
  | .absent => none
  | .one s => if jsTrim s = "" then none else some (jsTrim s)
  | .many l =>
    match l.head? with
    | none => none
    | some s => if jsTrim s = "" then none else some (jsTrim s)

/-- Outcome of the auth section of the preHandler: a 401 rejection, or the
request proceeds carrying the resolved rate-limit subject. -/
inductive AuthOutcome
  | reject (httpStatus : Nat) (code : ErrCode)
  | proceed (tenantId : String)
deriving DecidableEq, Repr

/-- The auth section of authAndRateLimit: skip when no credential
mechanism is configured (tenantId stays "anonymous"); else a missing key
is 401 MISSING_API_KEY, and an unvalidated key is 401 INVALID_API_KEY
through either the Supabase path or the env-keys allow-list. -/
def authStep (env : AuthEnv) (store : List ApiKeyRow) (header : HeaderValue) :
    AuthOutcome :=
  if requireApiKey env then
    match apiKeyFromHeader header with
    | none => .reject 401 .MISSING_API_KEY
    | some apiKeyStr =>
      if useSupabaseAuth env then
        match validateApiKey env store apiKeyStr with
        | .ok tenantId _ => .proceed tenantId
        | _ => .reject 401 .INVALID_API_KEY
      else
        if env.envApiKeys.contains apiKeyStr then .proceed apiKeyStr
        else .reject 401 .INVALID_API_KEY
  else .proceed "anonymous"

/-! ## Rate limiting (the rate section of authAndRateLimit)

A fixed window keyed by the wall-clock epoch minute, stored per subject in
an insertion-ordered map (JS Map). The section runs only when
PREGRADE_RATE_LIMIT_PER_MIN parses to a positive limit; nowMinute is
floor(Date.now() / 1000 / 60). -/

/-- The per-subject stored window: (windowEpochMinute, count). -/
structure RateState where
  windowEpochMinute : Nat
  count : Nat
deriving DecidableEq, Repr

/-- The rateState map, association list in insertion order. -/
abbrev RateMap := List (String × RateState)

/-- Map.get. -/
def mapGet (m : RateMap) (k : String) : Option RateState :=
  (m.find? (fun e => e.1 == k)).map (fun e => e.2)

/-- Map.set: replace the entry in place, else append. -/
def mapSet (m : RateMap) (k : String) (v : RateState) : RateMap :=
  match m with
  | [] => [(k, v)]
  | e :: rest => if e.1 == k then (k, v) :: rest else e :: mapSet rest k v

/-- Outcome of the rate section: 429 rejection or admission. -/
inductive RateOutcome
  | rejected (httpStatus : Nat) (code : ErrCode)
  | admitted
deriving DecidableEq, Repr

/-- The x-ratelimit response headers the section sets. -/
structure RateHeaders where
  limit : Nat
  remaining : Nat
  reset : Nat
deriving DecidableEq, Repr

/-- One request through the rate section for `subject` at `nowMinute`:
the stored window is reused only when its minute matches, otherwise the
evaluation starts from a zero count; at or above the limit the request is
rejected and the map is untouched, else the incremented window is stored. -/
def rateLimitStep (limit nowMinute : Nat) (subject : String) (m : RateMap) :
    RateOutcome × RateHeaders × RateMap :=
  let prev := mapGet m subject
  let current : RateState :=
    match prev with
    | some p => if p.windowEpochMinute == nowMinute then p else ⟨nowMinute, 0⟩
    | none => ⟨nowMinute, 0⟩
  let headers : RateHeaders := ⟨limit, limit - current.count, (nowMinute + 1) * 60⟩
  if limit ≤ current.count then
    (.rejected 429 .RATE_LIMIT_EXCEEDED, headers, m)
  else
    (.admitted, headers, mapSet m subject ⟨current.windowEpochMinute, current.count + 1⟩)

/-- `k` consecutive requests for one subject within one minute: the list
of outcomes and the final map. -/
def stepMany (limit nowMinute : Nat) (subject : String) :
    Nat → RateMap → List RateOutcome × RateMap
  | 0, m => ([], m)
  | k + 1, m =>
    let r := rateLimitStep limit nowMinute subject m
    let rest := stepMany limit nowMinute subject k r.2.2
    (r.1 :: rest.1, rest.2)

/-- The count the rate section will evaluate for `subject` at `nowMinute`:
the stored count when the stored window is the current minute, else 0. -/
def effCount (m : RateMap) (nowMinute : Nat) (subject : String) : Nat :=
  match mapGet m subject with
  | some p => if p.windowEpochMinute = nowMinute then p.count else 0
  | none => 0

/-! ## Job orchestrator (jobs.ts and the /v1/jobs route handlers)

Jobs live in the jobs table; the store is the row list. The analysis
result payload is opaque JSON to the gateway, modelled by its serialized
text. The Supabase configuration flag is the getSupabase() null check;
insert defaults leave result, error and completed_at null. -/

/-- The opaque analysis result payload (resp.result), as carried. -/
abbrev ResultPayload := String

/-- JobStatus of contracts.ts. -/
inductive JobStatus
  | pending
  | processing
  | completed
  | failed
deriving DecidableEq, Repr

/-- A row of the jobs table. -/
structure JobRow where
  id : String
  tenant_id : Option String
  status : JobStatus
  request_payload : Option AnalyzeBody
  result : Option ResultPayload
  error : Option String
  created_at : String
  completed_at : Option String
deriving DecidableEq, Repr

/-- The jobs store. -/
abbrev JobStore := List JobRow

/-- Row selection by id (.eq id, .limit 1, .maybeSingle). -/
def findJob (store : JobStore) (jobId : String) : Option JobRow :=
  store.find? (fun r => r.id == jobId)

/-- An update object passed to updateJob: status always present, the other
columns written only when mentioned (outer none = column untouched). -/
structure JobUpdate where
  status : JobStatus
  result : Option (Option ResultPayload)
  error : Option (Option String)
  completed_at : Option (Option String)
deriving DecidableEq, Repr

/-- The row after an UPDATE that sets only the mentioned columns. -/
def applyUpdate (r : JobRow) (u : JobUpdate) : JobRow :=
  ⟨r.id, r.tenant_id, u.status, r.request_payload,
    u.result.getD r.result, u.error.getD r.error,
    r.created_at, u.completed_at.getD r.completed_at⟩

/-- updateJob: UPDATE jobs SET ... WHERE id = jobId. -/
def updateJob (store : JobStore) (jobId : String) (u : JobUpdate) : JobStore :=
  store.map (fun r => if r.id == jobId then applyUpdate r u else r)

/-- The update written when execution begins. -/
def processingUpdate : JobUpdate := ⟨.processing, none, none, none⟩

/-- The terminal update of a successful run: completed with the result. -/
def completedUpdate (res : ResultPayload) (finishedAt : String) : JobUpdate :=
  ⟨.completed, some (some res), none, some (some finishedAt)⟩

/-- The terminal update of a failed run: failed with the error message. -/
def failedUpdate (msg : String) (finishedAt : String) : JobUpdate :=
  ⟨.failed, none, some (some msg), some (some finishedAt)⟩

/-- The store with the pending row createJob inserts. -/
def insertedStore (store : JobStore) (newId createdAt : String)
    (tenantId : Option String) (payload : AnalyzeBody) : JobStore :=
  store ++ [⟨newId, tenantId, .pending, some payload, none, none, createdAt, none⟩]

/-- createJob outcome: the new job id (with the store as persisted), or an
error message. -/
inductive CreateJobOutcome
  | created (jobId : String) (store : JobStore)
  | failure (error : String)
deriving DecidableEq, Repr

/-- createJob: without Supabase settings a configuration error; else the
pending row is inserted (result, error, completed_at default null) and
its id returned. The insert-failure path surfaces the store error text
and is outside this model (the store write is modelled as succeeding). -/
def createJob (configured : Bool) (store : JobStore) (newId createdAt : String)
    (tenantId : Option String) (payload : AnalyzeBody) : CreateJobOutcome :=
  if !configured then
    .failure "Jobs not configured. Set SUPABASE_URL and SUPABASE_SERVICE_ROLE_KEY."
  else .created newId (insertedStore store newId createdAt tenantId payload)

/-- runJobInBackground: the background task reads the persisted payload,
writes processing, and writes exactly one terminal update: failed when no
engine base URL is configured, else completed with the proxied result or
failed with the thrown message. The engine call is the proxyOutcome
input. Returns the ordered update trace and the final store. -/
def runJobInBackground (configured : Bool) (store : JobStore) (jobId : String)
    (pythonBaseUrl : Option String) (proxyOutcome : Except String ResultPayload)
    (finishedAt : String) : List JobUpdate × JobStore :=
  if !configured then ([], store)
  else
    match findJob store jobId with
    | none => ([], store)
    | some row =>
      if row.request_payload.isNone then ([], store)
      else
        let s1 := updateJob store jobId processingUpdate
        match pythonBaseUrl with
        | none =>
          let u := failedUpdate "Python service not configured." finishedAt
          ([processingUpdate, u], updateJob s1 jobId u)
        | some _ =>
          match proxyOutcome with
          | .ok res =>
            let u := completedUpdate res finishedAt
            ([processingUpdate, u], updateJob s1 jobId u)
          | .error msg =>
            let u := failedUpdate msg finishedAt
            ([processingUpdate, u], updateJob s1 jobId u)

/-- getJob outcome: the polled row fields, or an error message. -/
inductive GetJobOutcome
  | found (status : JobStatus) (result : Option ResultPayload)
      (error : Option String) (created_at : String) (completed_at : Option String)
  | failure (error : String)
deriving DecidableEq, Repr

/-- The tenant-scope filter getJob adds: only for a non-null tenant other
than "anonymous", restricting to rows with a null tenant_id or the
caller's tenant_id. -/
def jobAccessible (tenantId : Option String) (r : JobRow) : Bool :=
  match tenantId with
  | none => true
  | some t => if t == "anonymous" then true else (r.tenant_id.isNone || r.tenant_id == some t)

/-- getJob: a configuration error without Supabase settings; the first
accessible row with the id, else the not-found error. -/
def getJob (configured : Bool) (store : JobStore) (jobId : String)
    (tenantId : Option String) : GetJobOutcome :=
  if !configured then .failure "Jobs not configured."
  else
    match store.find? (fun r => r.id == jobId && jobAccessible tenantId r) with
    | none => .failure "Job not found."
    | some r => .found r.status r.result r.error r.created_at r.completed_at

/-- The client-visible response of POST /v1/jobs. -/
structure JobsPostResponse where
  httpStatus : Nat
  errorCode : Option ErrCode
  status : Option JobStatus
  jobId : Option String
deriving DecidableEq, Repr

/-- s.includes(pat) for a non-empty pattern. -/
def containsSub (s pat : String) : Bool :=
  (s.splitOn pat).length > 1

/-- validCardType of the v1 jobs/analyze routes:
pokemon, trainer or energy. -/
def validCardType (c : Option String) : Bool :=
  c == some "pokemon" || c == some "trainer" || c == some "energy"

/-- The front_image check of the v1 jobs/analyze routes: encoding base64
or url, with non-blank data. -/
def validFrontImage (fi : Option ImageRef) : Bool :=
  match fi with
  | none => false
  | some f => (f.encoding == "base64" || f.encoding == "url") && !(jsTrim f.data == "")

/-- POST /v1/jobs handler: body validation, createJob, then fire-and-forget
runJobInBackground; the response (pending, with the job id) depends only
on the createJob outcome, never on the background run. Returns the
response, the background update trace and the final store. -/
def jobsPostHandler (configured : Bool) (store : JobStore) (newId createdAt : String)
    (tenantId : Option String) (body : Option AnalyzeBody) (pythonBaseUrl : Option String)
    (proxyOutcome : Except String ResultPayload) (finishedAt : String) :
    JobsPostResponse × List JobUpdate × JobStore :=
  match body with
  | none => (⟨400, some .INVALID_REQUEST_FORMAT, none, none⟩, [], store)
  | some payload =>
    if !(validCardType payload.card_type) then
      (⟨400, some .UNSUPPORTED_CARD_TYPE, none, none⟩, [], store)
    else if !(validFrontImage payload.front_image) then
      (⟨400, some .MISSING_REQUIRED_FIELD, none, none⟩, [], store)
    else
      match createJob configured store newId createdAt tenantId payload with
      | .failure msg =>
        if containsSub msg "not configured" then
          (⟨501, some .NOT_IMPLEMENTED, none, none⟩, [], store)
        else (⟨500, some .INTERNAL_ERROR, none, none⟩, [], store)
      | .created jid store1 =>
        let run := runJobInBackground configured store1 jid pythonBaseUrl proxyOutcome finishedAt
        (⟨200, none, some .pending, some jid⟩, run.1, run.2)

/-- The client-visible response of GET /v1/jobs/:id. -/
structure JobsGetResponse where
  httpStatus : Nat
  errorCode : Option ErrCode
  errorMessage : Option String
  status : Option JobStatus
deriving DecidableEq, Repr

/-- GET /v1/jobs/:id handler: a found job is a 200 with its status; a
getJob failure is sent with error_code INTERNAL_ERROR, as 404 exactly
when the message is the not-found text and 500 otherwise. -/
def jobsGetHandler (configured : Bool) (store : JobStore) (jobId : String)
    (tenantId : Option String) : JobsGetResponse :=
  match getJob configured store jobId tenantId with
  | .found st _ _ _ _ => ⟨200, none, none, some st⟩
  | .failure msg =>
    if msg == "Job not found." then ⟨404, some .INTERNAL_ERROR, some msg, none⟩
    else ⟨500, some .INTERNAL_ERROR, some msg, none⟩

/-! ## POST /v1/uploads (presigned-credential issuance)

The handler validates kind, content_type (presence, then the allow-list),
and content_length (a finite positive number, then the configured
maximum) in order, answers 501 when the object store is unconfigured, and
only then requests the two presigned URLs. content_length is modelled as
Option Int: none for a missing or non-finite-number JSON value (both take
the same branch in the source). -/

/-- ALLOWED_CONTENT_TYPES of the uploads route. -/
def allowedContentTypes : List String :=
  ["image/jpeg", "image/png", "image/webp"]

/-- The uploads request body shape, loosely typed as received. -/
structure UploadBody where
  kind : Option String
  content_type : Option String
  content_length : Option Int
deriving DecidableEq, Repr

/-- The client-visible uploads outcome. -/
inductive UploadResult
  | badRequest (code : ErrCode)
  | notImplemented
  | signFailed
  | success
deriving DecidableEq, Repr

/-- The HTTP status each uploads outcome is sent with. -/
def uploadHttpStatus : UploadResult → Nat
  | .badRequest _ => 400
  | .notImplemented => 501
  | .signFailed => 500
  | .success => 200

/-- All the body validations of the uploads handler together. -/
def uploadBodyValid (maxBytes : Int) (p : UploadBody) : Bool :=
  (p.kind == some "front_image" || p.kind == some "back_image")
  && (match p.content_type with
      | none => false
      | some ct => !(ct == "") && allowedContentTypes.contains ct)
  && (match p.content_length with
      | none => false
      | some len => (0 < len) && len ≤ maxBytes)

/-- POST /v1/uploads handler: the validation cascade in source order, the
configuration check, then the presign attempt (its success is the signOk
input). The Bool result records whether presigned-credential issuance was
attempted. -/
def uploadsHandler (maxBytes : Int) (configured signOk : Bool)
    (body : Option UploadBody) : UploadResult × Bool :=
  match body with
  | none => (.badRequest .INVALID_REQUEST_FORMAT, false)
  | some p =>
    if !(p.kind == some "front_image" || p.kind == some "back_image") then
      (.badRequest .MISSING_REQUIRED_FIELD, false)
    else
      match p.content_type with
      | none => (.badRequest .MISSING_REQUIRED_FIELD, false)
      | some ct =>
        if ct == "" then (.badRequest .MISSING_REQUIRED_FIELD, false)
        else if !(allowedContentTypes.contains ct) then
          (.badRequest .INVALID_REQUEST_FORMAT, false)
        else
          match p.content_length with
          | none => (.badRequest .MISSING_REQUIRED_FIELD, false)
          | some len =>
            if len ≤ 0 then (.badRequest .MISSING_REQUIRED_FIELD, false)
            else if maxBytes < len then (.badRequest .INVALID_REQUEST_FORMAT, false)
            else if !configured then (.notImplemented, false)
            else if signOk then (.success, true) else (.signFailed, true)

/-! ## Synchronous proxy (pythonProxy.ts and the analyze route catch)

The outbound fetch is an explicit input: a rejection (network failure or
the AbortController timeout) or a response with its status and body text.
JSON.parse over the two body shapes is passed in as the two parse
functions. In the source, the throw built from a successfully parsed
engine error envelope stands INSIDE the try block whose catch follows it,
so that catch intercepts it: whether or not parsing succeeds, the error
that escapes proxyAnalyzeToPython for a non-ok status is the generic
"Python proxy error" carrying the raw body text, never the parsed
envelope. The definition mirrors that behaviour branch by branch. -/

/-- The engine's structured error envelope (ErrorResponse shape). -/
structure EngineErrorEnvelope where
  api_version : String
  request_id : Option String
  error_code : String
  error_message : Option String
deriving DecidableEq, Repr

/-- The parsed engine success envelope: the gateway forwards it unchanged;
only its result payload is observed downstream. -/
structure AnalyzeRespModel where
  request_id : String
  result : ResultPayload
deriving DecidableEq, Repr

/-- What one fetch of the engine produced. -/
inductive FetchOutcome
  | failure (message : String)
  | response (status : Nat) (body : String)
deriving DecidableEq, Repr

/-- resp.ok: status in 200..299. -/
def respOk (status : Nat) : Bool :=
  200 ≤ status && status < 300

/-- The error object thrown out of proxyAnalyzeToPython: message, backend
status, the parsed envelope when one was attached, and the raw body text. -/
structure ProxyThrow where
  message : String
  status : Option Nat
  errEnvelope : Option EngineErrorEnvelope
  errText : Option String
deriving DecidableEq, Repr

/-- proxyAnalyzeToPython: a fetch rejection propagates as thrown; a non-ok
status reaches the inner try/catch, whose own throw is caught by its own
catch, so both parse branches end in the generic error with the raw text;
an ok status parses the success body (a parse failure there is a thrown
JSON error). -/
def proxyAnalyzeToPython (parseErr : String → Option EngineErrorEnvelope)
    (parseResp : String → Option AnalyzeRespModel) (outcome : FetchOutcome) :
    Except ProxyThrow AnalyzeRespModel :=
  match outcome with
  | .failure msg => .error ⟨msg, none, none, none⟩
  | .response status body =>
    if !(respOk status) then
      match parseErr body with
      | some _ => .error ⟨"Python proxy error", some status, none, some body⟩
      | none => .error ⟨"Python proxy error", some status, none, some body⟩
    else
      match parseResp body with
      | some resp => .ok resp
      | none => .error ⟨"Unexpected token in JSON", none, none, none⟩

/-- The client-visible response of the analyze route around the proxy. -/
structure AnalyzeProxyResponse where
  httpStatus : Nat
  errorCode : Option ErrCode
  errorMessage : Option String
deriving DecidableEq, Repr

/-- The POST /v1/analyze proxy section: a successful proxy result is sent
through as a 200; every thrown proxy error is caught and sent as the
generic 500 INTERNAL_ERROR envelope "Analyze proxy failed.". -/
def analyzeProxyResult (parseErr : String → Option EngineErrorEnvelope)
    (parseResp : String → Option AnalyzeRespModel) (outcome : FetchOutcome) :
    AnalyzeProxyResponse :=
  match proxyAnalyzeToPython parseErr parseResp outcome with
  | .ok _ => ⟨200, none, none⟩
  | .error _ => ⟨500, some .INTERNAL_ERROR, some "Analyze proxy failed."⟩

/-! ## Auxiliary definitions for the statements and witnesses -/

/-- Terminal job statuses: completed and failed. -/
def isTerminal : JobStatus → Bool
  | .completed => true
  | .failed => true
  | _ => false

/-- The position of a status along the one-directional lifecycle
pending, processing, then terminal. -/
def statusRank : JobStatus → Nat
  | .pending => 0
  | .processing => 1
  | .completed => 2
  | .failed => 2

/-- Two analyze bodies whose base64 data differs as text ("QQ==" with
padding, "QQ" without) but decodes to the same byte sequence. -/
def analyzeBodyA : AnalyzeBody := ⟨some "pokemon", some ⟨"base64", "QQ=="⟩, none⟩

def analyzeBodyB : AnalyzeBody := ⟨some "pokemon", some ⟨"base64", "QQ"⟩, none⟩

/-- A concrete parsed engine error envelope. -/
def engineEnvelopeC : EngineErrorEnvelope :=
  ⟨"1.0", some "r1", "INVALID_IMAGE_FORMAT", some "bad image"⟩

/-- Auth environment with only env-based keys configured. -/
def envKeysOnly : AuthEnv := ⟨none, none, ["k1"], none⟩

/-- Auth environment with Supabase auth configured. -/
def envSupabase : AuthEnv := ⟨some "u", some "sk", [], none⟩

/-- A stored api_keys row for the key "abc" that has been revoked. -/
def revokedRow : ApiKeyRow :=
  ⟨"key1", "tenant1", hashApiKey none "abc", some "2026-01-01T00:00:00Z"⟩

/-- A well-formed analyze/jobs payload for the witnesses. -/
def payloadC : AnalyzeBody := ⟨some "pokemon", some ⟨"base64", "QUJD"⟩, none⟩

/-! ## Theorems -/

/-- FIPS 180-4 test vector: the embedded SHA-256 digests "abc" correctly. -/
example :
    sha256HexOfString "abc"
      = "ba7816bf8f01cfea414140de5dae2223b00361a396177a9cb410ff61f20015ad" := by
  decide

/-- The derived request id of the bytes "ABC" (base64 "QUJD"):
sha256("ABC")[:24] and the fixed sha256("pokemon")[:8] discriminator. -/
example :
    requestIdFromImageBytes (nodeBase64Decode "QUJD")
      = "b5d4045c3f466fa91fe2cc6a_eaa2bded" := by
  decide

/-- A successful analyze response carries exactly the request id derived
from the decoded front-image bytes. -/
theorem analyzeHandler_stub_requestId {b : AnalyzeBody} {s : Nat} {r : String}
    (h : analyzeHandler (some b) = .stubResp s r) :
    r = requestIdFromImageBytes (decodedFront b) := by
  obtain ⟨ct, fi, cr⟩ := b
  cases fi with
  | none =>
    simp only [analyzeHandler] at h
    split at h <;> simp at h
  | some f =>
    simp only [analyzeHandler] at h
    split at h
    · simp at h
    · split at h
      · simp at h
      · split at h
        · simp at h
        · rw [AnalyzeOutcome.stubResp.injEq] at h
          rw [← h.2]
          rfl

/-- Claim C1: for every two calls to POST /v1/analyze whose submitted
front-image byte sequences are identical, the request_id in the two
responses is identical — the request_id is a deterministic function of
the image bytes, not of the call instance. -/
theorem analyze_requestId_deterministic (b1 b2 : AnalyzeBody) (s1 s2 : Nat) (r1 r2 : String)
    (h1 : analyzeHandler (some b1) = .stubResp s1 r1)
    (h2 : analyzeHandler (some b2) = .stubResp s2 r2)
    (hbytes : decodedFront b1 = decodedFront b2) :
    r1 = r2 := by
  rw [analyzeHandler_stub_requestId h1, analyzeHandler_stub_requestId h2, hbytes]

/-- Claim C1 witness: the two textual encodings of the byte 0x41 yield
the same request id through the handler. -/
theorem analyze_requestId_deterministic_witness :
    requestIdFromImageBytes (nodeBase64Decode "QQ==")
      = requestIdFromImageBytes (nodeBase64Decode "QQ") :=
  analyze_requestId_deterministic analyzeBodyA analyzeBodyB 501 501
    (requestIdFromImageBytes (nodeBase64Decode "QQ=="))
    (requestIdFromImageBytes (nodeBase64Decode "QQ"))
    rfl rfl (by decide)

/-- Claim C6 counterexample: for a nonexistent job id the handler response
is coded INTERNAL_ERROR in its envelope (it differs from a true internal
error only by HTTP status 404 and the message text), refuting the claim
that the not-found failure is not an INTERNAL_ERROR response. -/
theorem jobs_get_notfound_is_internal_error_coded :
    getJob true [] "j1" none = .failure "Job not found."
    ∧ (jobsGetHandler true [] "j1" none).errorCode = some ErrCode.INTERNAL_ERROR := by
  constructor
  · rfl
  · rfl

/-- Claim C6 (amended): GET /v1/jobs/:id for an unknown or inaccessible
job id returns HTTP 404 with error_message "Job not found." — it is
distinguished from internal errors (sent as 500) by status code and
message only, while the envelope error_code is INTERNAL_ERROR in both
cases. -/
theorem jobs_get_notfound_404 (store : JobStore) (jobId : String)
    (tenantId : Option String)
    (hnone : store.find? (fun r => r.id == jobId && jobAccessible tenantId r) = none) :
    jobsGetHandler true store jobId tenantId
      = ⟨404, some .INTERNAL_ERROR, some "Job not found.", none⟩ := by
  simp [jobsGetHandler, getJob, hnone]

/-- Claim C6 witness: the empty store at a concrete id. -/
theorem jobs_get_notfound_404_witness :
    jobsGetHandler true [] "missing" none
      = ⟨404, some .INTERNAL_ERROR, some "Job not found.", none⟩ :=
  jobs_get_notfound_404 [] "missing" none rfl

/-- Claim C8: for a non-success engine status the error thrown out of
proxyAnalyzeToPython is the generic "Python proxy error" carrying the raw
body text and NO parsed envelope — for every parse function, hence also
when parsing succeeds (first and last conjuncts) — and the client then
receives the generic 500 INTERNAL_ERROR envelope (second conjunct), as it
also does on transport failure (third conjunct). The claimed forwarding
of the parsed envelope never happens: the throw that carries it stands
inside its own try block and is intercepted by the catch that follows. -/
theorem proxy_error_envelope_swallowed :
    proxyAnalyzeToPython (fun _ => some engineEnvelopeC) (fun _ => none)
        (.response 400 "engine error body")
      = .error ⟨"Python proxy error", some 400, none, some "engine error body"⟩
    ∧ analyzeProxyResult (fun _ => some engineEnvelopeC) (fun _ => none)
        (.response 400 "engine error body")
      = ⟨500, some .INTERNAL_ERROR, some "Analyze proxy failed."⟩
    ∧ analyzeProxyResult (fun _ => some engineEnvelopeC) (fun _ => none)
        (.failure "fetch aborted")
      = ⟨500, some .INTERNAL_ERROR, some "Analyze proxy failed."⟩
    ∧ ∀ (parseErr : String → Option EngineErrorEnvelope)
        (parseResp : String → Option AnalyzeRespModel) (status : Nat) (body : String),
        respOk status = false →
        proxyAnalyzeToPython parseErr parseResp (.response status body)
          = .error ⟨"Python proxy error", some status, none, some body⟩ := by
  refine ⟨rfl, rfl, rfl, ?_⟩
  intro parseErr parseResp status body hok
  simp only [proxyAnalyzeToPython, hok, Bool.not_false, if_true]
  cases parseErr body <;> rfl

/-- mapSet leaves the lookup of every other key of the rate map unchanged. -/
theorem find?_mapSet_other (m : RateMap) (k k2 : String) (v : RateState)
    (hne : k2 ≠ k) :
    List.find? (fun e => e.1 == k2) (mapSet m k v)
      = List.find? (fun e => e.1 == k2) m := by
  have hkk2 : (k == k2) = false := beq_eq_false_iff_ne.mpr (fun h => hne h.symm)
  induction m with
  | nil => simp [mapSet, hkk2]
  | cons e rest ih =>
    rcases e with ⟨ek, ev⟩
    cases hek : (ek == k) with
    | true =>
      have hekk : ek = k := by simpa using hek
      have h2 : (ek == k2) = false := by rw [hekk]; exact hkk2
      simp [mapSet, hek, List.find?_cons, hkk2, h2]
    | false =>
      simp only [mapSet, hek, Bool.false_eq_true, if_false, List.find?_cons]
      cases h2 : (ek == k2) <;> simp [h2, ih]

/-- mapSet leaves every other key of the rate map unchanged. -/
theorem mapGet_mapSet_other (m : RateMap) (k k2 : String) (v : RateState)
    (hne : k2 ≠ k) : mapGet (mapSet m k v) k2 = mapGet m k2 := by
  unfold mapGet
  rw [find?_mapSet_other m k k2 v hne]

/-- Claim C10: processing one rate-limit subject's request — admitted or
rejected — leaves every other subject's stored rate window unchanged. -/
theorem rate_limit_frame (limit now : Nat) (s k : String) (m : RateMap)
    (hne : k ≠ s) :
    mapGet (rateLimitStep limit now s m).2.2 k = mapGet m k := by
  simp only [rateLimitStep]
  split
  · rfl
  · exact mapGet_mapSet_other m s k _ hne

/-- Claim C10 witness: a step for subject "b" leaves subject "a"
untouched, whether "b" is admitted (limit 2) or rejected (limit 0). -/
theorem rate_limit_frame_witness :
    mapGet (rateLimitStep 2 7 "b" [("a", ⟨7, 1⟩)]).2.2 "a"
      = mapGet [("a", (⟨7, 1⟩ : RateState))] "a" :=
  rate_limit_frame 2 7 "b" "a" [("a", ⟨7, 1⟩)] (by decide)

/-- With Supabase auth configured both settings are present. -/
theorem supabase_configured_opts (env : AuthEnv) (hsup : useSupabaseAuth env = true) :
    env.supabaseUrl.isSome = true ∧ env.supabaseServiceRoleKey.isSome = true := by
  simpa [useSupabaseAuth, Bool.and_eq_true] using hsup

/-- validateApiKey answers invalid when every stored row carrying the
submitted key's hash is revoked (in particular when no row carries it). -/
theorem validateApiKey_invalid_of_no_live_row (env : AuthEnv) (store : List ApiKeyRow)
    (k : String) (hsup : useSupabaseAuth env = true)
    (hall : ∀ r ∈ store, r.key_hash = hashApiKey env.apiKeyHashSalt k → r.revoked_at ≠ none) :
    validateApiKey env store k = .invalid := by
  obtain ⟨hu, hk⟩ := supabase_configured_opts env hsup
  obtain ⟨u, hu2⟩ := Option.isSome_iff_exists.mp hu
  obtain ⟨sk, hk2⟩ := Option.isSome_iff_exists.mp hk
  cases hfind : store.find? (fun r => r.key_hash == hashApiKey env.apiKeyHashSalt k) with
  | none => simp [validateApiKey, hu2, hk2, hfind]
  | some r =>
    have hmem := List.mem_of_find?_eq_some hfind
    have hmatch : r.key_hash = hashApiKey env.apiKeyHashSalt k := by
      simpa using List.find?_some hfind
    have hrev : r.revoked_at.isSome = true :=
      Option.ne_none_iff_isSome.mp (hall r hmem hmatch)
    simp [validateApiKey, hu2, hk2, hfind, hrev]

/-- validateApiKey answers invalid when the row the hash lookup selects is
revoked (key_hash is unique in the schema, so that row is the only match). -/
theorem validateApiKey_invalid_of_revoked_row (env : AuthEnv) (store : List ApiKeyRow)
    (k : String) (r : ApiKeyRow) (hsup : useSupabaseAuth env = true)
    (hfind : store.find? (fun row => row.key_hash == hashApiKey env.apiKeyHashSalt k) = some r)
    (hrev : r.revoked_at ≠ none) :
    validateApiKey env store k = .invalid := by
  obtain ⟨hu, hk⟩ := supabase_configured_opts env hsup
  obtain ⟨u, hu2⟩ := Option.isSome_iff_exists.mp hu
  obtain ⟨sk, hk2⟩ := Option.isSome_iff_exists.mp hk
  have hrevS : r.revoked_at.isSome = true := Option.ne_none_iff_isSome.mp hrev
  simp [validateApiKey, hu2, hk2, hfind, hrevS]

/-- Claim C2: with a credential mechanism configured, a request without an
X-API-Key is rejected 401 MISSING_API_KEY; a key matching no stored
non-revoked hash is rejected 401 INVALID_API_KEY; and a key whose hash
lookup selects a row with a non-null revoked_at is likewise rejected 401
INVALID_API_KEY — a revoked key is permanently unusable. -/
theorem auth_rejects_missing_invalid_revoked (env : AuthEnv) (store : List ApiKeyRow)
    (header : HeaderValue) :
    (requireApiKey env = true → apiKeyFromHeader header = none →
      authStep env store header = .reject 401 .MISSING_API_KEY)
    ∧ (∀ k, useSupabaseAuth env = true → apiKeyFromHeader header = some k →
        (∀ r ∈ store, r.key_hash = hashApiKey env.apiKeyHashSalt k → r.revoked_at ≠ none) →
        authStep env store header = .reject 401 .INVALID_API_KEY)
    ∧ (∀ k r, useSupabaseAuth env = true → apiKeyFromHeader header = some k →
        store.find? (fun row => row.key_hash == hashApiKey env.apiKeyHashSalt k) = some r →
        r.revoked_at ≠ none →
        authStep env store header = .reject 401 .INVALID_API_KEY) := by
  refine ⟨?_, ?_, ?_⟩
  · intro hreq hkey
    simp [authStep, hreq, hkey]
  · intro k hsup hkey hall
    have hreq : requireApiKey env = true := by simp [requireApiKey, hsup]
    have hval := validateApiKey_invalid_of_no_live_row env store k hsup hall
    simp [authStep, hreq, hkey, hsup, hval]
  · intro k r hsup hkey hfind hrev
    have hreq : requireApiKey env = true := by simp [requireApiKey, hsup]
    have hval := validateApiKey_invalid_of_revoked_row env store k r hsup hfind hrev
    simp [authStep, hreq, hkey, hsup, hval]

/-- Claim C2 witness: a missing header, an unknown key against an empty
store, and a revoked key whose hash matches its stored row. -/
theorem auth_rejects_missing_invalid_revoked_witness :
    authStep envKeysOnly [] .absent = .reject 401 .MISSING_API_KEY
    ∧ authStep envSupabase [] (.one "abc") = .reject 401 .INVALID_API_KEY
    ∧ authStep envSupabase [revokedRow] (.one "abc") = .reject 401 .INVALID_API_KEY := by
  refine ⟨?_, ?_, ?_⟩
  · exact (auth_rejects_missing_invalid_revoked envKeysOnly [] .absent).1 (by decide) rfl
  · exact (auth_rejects_missing_invalid_revoked envSupabase [] (.one "abc")).2.1
      "abc" (by decide) (by decide) (by simp)
  · exact (auth_rejects_missing_invalid_revoked envSupabase [revokedRow] (.one "abc")).2.2
      "abc" revokedRow (by decide) (by decide)
      (List.find?_cons_of_pos _ (by simp [revokedRow, envSupabase]))
      (by simp [revokedRow])

/-- Claim C9: a present but blank-after-trim X-API-Key is treated as a
missing key; a repeated header is read through its first value; and the
key compared against the credential store or the env allow-list is
exactly the trimmed header value. -/
theorem apiKey_header_normalization (env : AuthEnv) (store : List ApiKeyRow) :
    (∀ s, jsTrim s = "" → requireApiKey env = true →
      authStep env store (.one s) = .reject 401 .MISSING_API_KEY)
    ∧ (∀ s rest, authStep env store (.many (s :: rest)) = authStep env store (.one s))
    ∧ (∀ s, jsTrim s ≠ "" → useSupabaseAuth env = true →
        authStep env store (.one s)
          = (match validateApiKey env store (jsTrim s) with
             | .ok tenantId _ => .proceed tenantId
             | _ => .reject 401 .INVALID_API_KEY))
    ∧ (∀ s, jsTrim s ≠ "" → useSupabaseAuth env = false → requireApiKey env = true →
        authStep env store (.one s)
          = (if env.envApiKeys.contains (jsTrim s) then .proceed (jsTrim s)
             else .reject 401 .INVALID_API_KEY)) := by
  refine ⟨?_, ?_, ?_, ?_⟩
  · intro s htrim hreq
    simp [authStep, apiKeyFromHeader, htrim, hreq]
  · intro s rest
    have hsame : apiKeyFromHeader (.many (s :: rest)) = apiKeyFromHeader (.one s) := by
      simp [apiKeyFromHeader]
    simp only [authStep, hsame]
  · intro s htrim hsup
    have hreq : requireApiKey env = true := by simp [requireApiKey, hsup]
    have hkey : apiKeyFromHeader (.one s) = some (jsTrim s) := by
      simp [apiKeyFromHeader, htrim]
    simp [authStep, hreq, hkey, hsup]
  · intro s htrim hsup hreq
    have hkey : apiKeyFromHeader (.one s) = some (jsTrim s) := by
      simp [apiKeyFromHeader, htrim]
    simp [authStep, hreq, hkey, hsup]

/-- Claim C9 witness: a whitespace-only key, a repeated header, and two
keys with surrounding whitespace through both mechanisms. -/
theorem apiKey_header_normalization_witness :
    authStep envKeysOnly [] (.one "   ") = .reject 401 .MISSING_API_KEY
    ∧ authStep envSupabase [] (.many ["a", "b"]) = authStep envSupabase [] (.one "a")
    ∧ authStep envSupabase [] (.one " abc ")
        = (match validateApiKey envSupabase [] (jsTrim " abc ") with
           | .ok tenantId _ => .proceed tenantId
           | _ => .reject 401 .INVALID_API_KEY)
    ∧ authStep envKeysOnly [] (.one " k1 ")
        = (if envKeysOnly.envApiKeys.contains (jsTrim " k1 ") then .proceed (jsTrim " k1 ")
           else .reject 401 .INVALID_API_KEY) := by
  refine ⟨?_, ?_, ?_, ?_⟩
  · exact (apiKey_header_normalization envKeysOnly []).1 "   " (by decide) (by decide)
  · exact (apiKey_header_normalization envSupabase []).2.1 "a" ["b"]
  · exact (apiKey_header_normalization envSupabase []).2.2.1 " abc " (by decide) (by decide)
  · exact (apiKey_header_normalization envKeysOnly []).2.2.2 " k1 "
      (by decide) (by decide) (by decide)

/-- mapSet stores the value it writes under its key. -/
theorem mapGet_mapSet_self (m : RateMap) (k : String) (v : RateState) :
    mapGet (mapSet m k v) k = some v := by
  induction m with
  | nil => simp [mapSet, mapGet]
  | cons e rest ih =>
    rcases e with ⟨ek, ev⟩
    cases hek : (ek == k) with
    | true => simp [mapSet, hek, mapGet, List.find?_cons]
    | false =>
      simp only [mapSet, hek, Bool.false_eq_true, if_false]
      simp only [mapGet, List.find?_cons, hek] at ih ⊢
      exact ih

/-- An admitted request: below the limit the step admits, reports the
remaining budget, and stores the incremented current-window count. -/
theorem rateLimitStep_admit (limit now : Nat) (s : String) (m : RateMap) (c : Nat)
    (hc : effCount m now s = c) (hlt : c < limit) :
    rateLimitStep limit now s m
      = (.admitted, ⟨limit, limit - c, (now + 1) * 60⟩, mapSet m s ⟨now, c + 1⟩) := by
  unfold effCount at hc
  cases hget : mapGet m s with
  | none =>
    rw [hget] at hc
    simp only at hc
    subst hc
    simp [rateLimitStep, hget, Nat.not_le.mpr hlt]
  | some p =>
    rw [hget] at hc
    simp only at hc
    rcases p with ⟨w, cnt⟩
    by_cases hw : w = now
    · subst hw
      rw [if_pos rfl] at hc
      subst hc
      simp [rateLimitStep, hget, Nat.not_le.mpr hlt]
    · have hb : (w == now) = false := beq_eq_false_iff_ne.mpr hw
      rw [if_neg hw] at hc
      subst hc
      simp [rateLimitStep, hget, hb, Nat.not_le.mpr hlt]

/-- A rejected request: at or above the limit the step rejects with
RATE_LIMIT_EXCEEDED and leaves the map untouched. -/
theorem rateLimitStep_reject (limit now : Nat) (s : String) (m : RateMap)
    (hge : limit ≤ effCount m now s) :
    (rateLimitStep limit now s m).1 = .rejected 429 .RATE_LIMIT_EXCEEDED
    ∧ (rateLimitStep limit now s m).2.2 = m := by
  unfold effCount at hge
  cases hget : mapGet m s with
  | none =>
    rw [hget] at hge
    simp only at hge
    have h0 : limit = 0 := Nat.le_zero.mp hge
    subst h0
    simp [rateLimitStep, hget]
  | some p =>
    rw [hget] at hge
    simp only at hge
    rcases p with ⟨w, cnt⟩
    by_cases hw : w = now
    · subst hw
      rw [if_pos rfl] at hge
      simp [rateLimitStep, hget, hge]
    · have hb : (w == now) = false := beq_eq_false_iff_ne.mpr hw
      rw [if_neg hw] at hge
      have h0 : limit = 0 := Nat.le_zero.mp hge
      subst h0
      simp [rateLimitStep, hget, hb]

/-- Starting from an effective count `c` in the current window, `k`
further requests with `c + k` within the limit are all admitted, and the
subject's window afterwards holds exactly `c + k`. -/
theorem stepMany_admits (limit now : Nat) (s : String) :
    ∀ (k : Nat) (m : RateMap) (c : Nat), effCount m now s = c → c + k ≤ limit →
      (stepMany limit now s k m).1 = List.replicate k .admitted
      ∧ effCount (stepMany limit now s k m).2 now s = c + k
      ∧ (0 < k → mapGet (stepMany limit now s k m).2 s = some ⟨now, c + k⟩) := by
  intro k
  induction k with
  | zero =>
    intro m c hc _
    exact ⟨rfl, by simpa [stepMany] using hc, fun h => absurd h (by omega)⟩
  | succ k ih =>
    intro m c hc hle
    have hlt : c < limit := by omega
    have hstep := rateLimitStep_admit limit now s m c hc hlt
    have hfst : (rateLimitStep limit now s m).1 = .admitted := by rw [hstep]
    have heff : effCount (rateLimitStep limit now s m).2.2 now s = c + 1 := by
      rw [hstep]
      simp [effCount, mapGet_mapSet_self]
    obtain ⟨h1, h2, h3⟩ := ih (rateLimitStep limit now s m).2.2 (c + 1) heff (by omega)
    refine ⟨?_, ?_, ?_⟩
    · simp only [stepMany]
      simp [hfst, h1, List.replicate_succ]
    · have harith : c + 1 + k = c + (k + 1) := by omega
      rw [harith] at h2
      simpa [stepMany] using h2
    · intro _
      rcases Nat.eq_zero_or_pos k with hk0 | hkpos
      · subst hk0
        simp only [stepMany]
        rw [hstep]
        simpa using mapGet_mapSet_self m s ⟨now, c + 1⟩
      · have h3p := h3 hkpos
        have harith : c + 1 + k = c + (k + 1) := by omega
        rw [harith] at h3p
        simpa [stepMany] using h3p

/-- Claim C3: with a configured per-minute limit N, a subject starting a
window is admitted on each of its first N requests (and the stored
counter, equal to the number of admitted requests, never exceeds N); the
(N+1)-th request in the same window is rejected 429 RATE_LIMIT_EXCEEDED
without touching the counter; and the first request of the next window is
admitted again, the counter restarting at 1. -/
theorem rate_limit_fixed_window (limit now : Nat) (s : String) (m : RateMap)
    (hpos : 0 < limit) (hfresh : effCount m now s = 0) :
    (∀ j, j ≤ limit →
      (stepMany limit now s j m).1 = List.replicate j .admitted
      ∧ effCount (stepMany limit now s j m).2 now s = j)
    ∧ (rateLimitStep limit now s (stepMany limit now s limit m).2).1
        = .rejected 429 .RATE_LIMIT_EXCEEDED
    ∧ (rateLimitStep limit now s (stepMany limit now s limit m).2).2.2
        = (stepMany limit now s limit m).2
    ∧ (rateLimitStep limit (now + 1) s (stepMany limit now s limit m).2).1 = .admitted
    ∧ mapGet (rateLimitStep limit (now + 1) s (stepMany limit now s limit m).2).2.2 s
        = some ⟨now + 1, 1⟩ := by
  have hall := stepMany_admits limit now s limit m 0 hfresh (by omega)
  have hfull : effCount (stepMany limit now s limit m).2 now s = limit := by
    simpa using hall.2.1
  have hrej := rateLimitStep_reject limit now s (stepMany limit now s limit m).2
    (by rw [hfull])
  have hmg : mapGet (stepMany limit now s limit m).2 s = some ⟨now, limit⟩ := by
    simpa using hall.2.2 hpos
  have hne : ¬(now = now + 1) := by omega
  have heff2 : effCount (stepMany limit now s limit m).2 (now + 1) s = 0 := by
    simp [effCount, hmg, hne]
  have hadm := rateLimitStep_admit limit (now + 1) s (stepMany limit now s limit m).2
    0 heff2 hpos
  refine ⟨?_, hrej.1, hrej.2, ?_, ?_⟩
  · intro j hj
    have h := stepMany_admits limit now s j m 0 hfresh (by omega)
    exact ⟨h.1, by simpa using h.2.1⟩
  · rw [hadm]
  · rw [hadm]
    simpa using mapGet_mapSet_self (stepMany limit now s limit m).2 s ⟨now + 1, 1⟩

/-- Claim C3 witness: limit 2 at minute 5 from the empty map — two
admissions, a rejection of the third request, and a fresh admission in
minute 6. -/
theorem rate_limit_fixed_window_witness :
    (stepMany 2 5 "t" 2 []).1 = [.admitted, .admitted]
    ∧ (rateLimitStep 2 5 "t" (stepMany 2 5 "t" 2 []).2).1
        = .rejected 429 .RATE_LIMIT_EXCEEDED
    ∧ (rateLimitStep 2 5 "t" (stepMany 2 5 "t" 2 []).2).2.2 = (stepMany 2 5 "t" 2 []).2
    ∧ (rateLimitStep 2 6 "t" (stepMany 2 5 "t" 2 []).2).1 = .admitted := by
  obtain ⟨h1, h2, h3, h4, h5⟩ := rate_limit_fixed_window 2 5 "t" [] (by decide) (by decide)
  exact ⟨by simpa using (h1 2 le_rfl).1, h2, h3, h4⟩

/-- The freshly inserted pending row is what a lookup of its id finds. -/
theorem findJob_inserted (store : JobStore) (newId createdAt : String)
    (tenantId : Option String) (payload : AnalyzeBody)
    (hfresh : findJob store newId = none) :
    findJob (insertedStore store newId createdAt tenantId payload) newId
      = some ⟨newId, tenantId, .pending, some payload, none, none, createdAt, none⟩ := by
  unfold findJob at hfresh ⊢
  unfold insertedStore
  rw [List.find?_append, hfresh]
  simp

/-- The update trace of one background run over a store holding the job
row with its payload: the processing write, then the one terminal write
selected by the engine configuration and the proxied call. -/
theorem runJob_trace (store : JobStore) (jobId : String) (row : JobRow)
    (baseUrl : Option String) (proxy : Except String ResultPayload) (t : String)
    (hrow : findJob store jobId = some row)
    (hpay : row.request_payload.isNone = false) :
    (runJobInBackground true store jobId baseUrl proxy t).1
      = [processingUpdate,
         match baseUrl with
         | none => failedUpdate "Python service not configured." t
         | some _ =>
           match proxy with
           | .ok res => completedUpdate res t
           | .error msg => failedUpdate msg t] := by
  cases baseUrl with
  | none => simp [runJobInBackground, hrow, hpay]
  | some b => cases proxy <;> simp [runJobInBackground, hrow, hpay]

/-- The final store of one background run over a store holding the job
row with its payload: the processing update, then the terminal update. -/
theorem runJob_final_store (store : JobStore) (jobId : String) (row : JobRow)
    (baseUrl : Option String) (proxy : Except String ResultPayload) (t : String)
    (hrow : findJob store jobId = some row)
    (hpay : row.request_payload.isNone = false) :
    (runJobInBackground true store jobId baseUrl proxy t).2
      = updateJob (updateJob store jobId processingUpdate) jobId
          (match baseUrl with
           | none => failedUpdate "Python service not configured." t
           | some _ =>
             match proxy with
             | .ok res => completedUpdate res t
             | .error msg => failedUpdate msg t) := by
  cases baseUrl with
  | none => simp [runJobInBackground, hrow, hpay]
  | some b => cases proxy <;> simp [runJobInBackground, hrow, hpay]

/-- Claim C4: through creation and its background run a job's status only
moves forward along pending, processing, then completed or failed: the
job is created pending, the run's write trace is strictly
rank-increasing, it contains exactly one terminal write, and no write
follows the terminal one. -/
theorem job_status_monotonic_terminal_once (store : JobStore) (newId createdAt : String)
    (tenantId : Option String) (payload : AnalyzeBody) (pythonBaseUrl : Option String)
    (proxyOutcome : Except String ResultPayload) (finishedAt : String)
    (hfresh : findJob store newId = none) :
    createJob true store newId createdAt tenantId payload
      = .created newId (insertedStore store newId createdAt tenantId payload)
    ∧ List.Chain (fun a b => statusRank a < statusRank b) .pending
        ((runJobInBackground true (insertedStore store newId createdAt tenantId payload)
            newId pythonBaseUrl proxyOutcome finishedAt).1.map (fun u => u.status))
    ∧ ((runJobInBackground true (insertedStore store newId createdAt tenantId payload)
          newId pythonBaseUrl proxyOutcome finishedAt).1.filter
        (fun u => isTerminal u.status)).length = 1
    ∧ (∀ u ∈ (runJobInBackground true (insertedStore store newId createdAt tenantId payload)
          newId pythonBaseUrl proxyOutcome finishedAt).1.dropLast,
        isTerminal u.status = false) := by
  have hrow := findJob_inserted store newId createdAt tenantId payload hfresh
  have htr := runJob_trace (insertedStore store newId createdAt tenantId payload) newId
    _ pythonBaseUrl proxyOutcome finishedAt hrow rfl
  rw [htr]
  cases pythonBaseUrl with
  | none =>
    refine ⟨rfl, ?_, ?_, ?_⟩ <;>
      simp [processingUpdate, failedUpdate, statusRank, isTerminal, List.chain_cons]
  | some b =>
    cases proxyOutcome with
    | ok res =>
      refine ⟨rfl, ?_, ?_, ?_⟩ <;>
        simp [processingUpdate, completedUpdate, statusRank, isTerminal, List.chain_cons]
    | error msg =>
      refine ⟨rfl, ?_, ?_, ?_⟩ <;>
        simp [processingUpdate, failedUpdate, statusRank, isTerminal, List.chain_cons]

/-- Claim C4 witness: one job created and run to completion. -/
theorem job_status_monotonic_terminal_once_witness :
    createJob true [] "j1" "t0" none payloadC
      = .created "j1" (insertedStore [] "j1" "t0" none payloadC)
    ∧ List.Chain (fun a b => statusRank a < statusRank b) .pending
        ((runJobInBackground true (insertedStore [] "j1" "t0" none payloadC)
            "j1" (some "base") (.ok "res") "t1").1.map (fun u => u.status))
    ∧ ((runJobInBackground true (insertedStore [] "j1" "t0" none payloadC)
          "j1" (some "base") (.ok "res") "t1").1.filter
        (fun u => isTerminal u.status)).length = 1
    ∧ (∀ u ∈ (runJobInBackground true (insertedStore [] "j1" "t0" none payloadC)
          "j1" (some "base") (.ok "res") "t1").1.dropLast,
        isTerminal u.status = false) :=
  job_status_monotonic_terminal_once [] "j1" "t0" none payloadC
    (some "base") (.ok "res") "t1" rfl

/-- updateJob only rewrites the row it addresses, in place. -/
theorem findJob_updateJob (store : JobStore) (jId i : String) (u : JobUpdate) :
    findJob (updateJob store jId u) i
      = (findJob store i).map (fun r => if r.id == jId then applyUpdate r u else r) := by
  unfold findJob updateJob
  rw [List.find?_map]
  have hpred : ((fun r : JobRow => r.id == i)
        ∘ (fun r => if r.id == jId then applyUpdate r u else r))
      = fun r : JobRow => r.id == i := by
    funext r
    by_cases h : r.id = jId <;> simp [h, applyUpdate]
  rw [hpred]

/-- An unscoped (anonymous) poll reads the row with the polled id. -/
theorem getJob_unscoped (store : JobStore) (jobId : String) :
    getJob true store jobId none
      = (match findJob store jobId with
         | none => .failure "Job not found."
         | some r => .found r.status r.result r.error r.created_at r.completed_at) := by
  simp [getJob, findJob, jobAccessible]

/-- Claim C5: POST /v1/jobs answers 200 with status pending immediately
after persisting the job, and any terminal state a later poll of the job
observes satisfies: completed has a non-null result and a null error,
failed has a non-null error and a null result, and result and error are
never both non-null. -/
theorem jobs_post_pending_then_terminal (store : JobStore) (newId createdAt : String)
    (tenantId : Option String) (payload : AnalyzeBody) (pythonBaseUrl : Option String)
    (proxyOutcome : Except String ResultPayload) (finishedAt : String)
    (hfresh : findJob store newId = none)
    (hct : validCardType payload.card_type = true)
    (hfi : validFrontImage payload.front_image = true) :
    (jobsPostHandler true store newId createdAt tenantId (some payload) pythonBaseUrl
        proxyOutcome finishedAt).1 = ⟨200, none, some .pending, some newId⟩
    ∧ ∀ st res err ca comp,
        getJob true (jobsPostHandler true store newId createdAt tenantId (some payload)
            pythonBaseUrl proxyOutcome finishedAt).2.2 newId none
          = .found st res err ca comp →
        (st = .completed → res.isSome = true ∧ err = none)
        ∧ (st = .failed → err.isSome = true ∧ res = none)
        ∧ ¬(res.isSome = true ∧ err.isSome = true) := by
  have hpost : jobsPostHandler true store newId createdAt tenantId (some payload)
      pythonBaseUrl proxyOutcome finishedAt
      = (⟨200, none, some .pending, some newId⟩,
         runJobInBackground true (insertedStore store newId createdAt tenantId payload)
           newId pythonBaseUrl proxyOutcome finishedAt) := by
    simp [jobsPostHandler, hct, hfi, createJob]
  have hrow := findJob_inserted store newId createdAt tenantId payload hfresh
  have hfin := runJob_final_store (insertedStore store newId createdAt tenantId payload)
    newId _ pythonBaseUrl proxyOutcome finishedAt hrow rfl
  refine ⟨by rw [hpost], ?_⟩
  intro st res err ca comp h
  rw [hpost] at h
  simp only at h
  rw [hfin, getJob_unscoped, findJob_updateJob, findJob_updateJob, hrow] at h
  cases pythonBaseUrl with
  | none =>
    simp [applyUpdate, processingUpdate, failedUpdate] at h
    obtain ⟨rfl, rfl, rfl, rfl, rfl⟩ := h
    simp
  | some b =>
    cases proxyOutcome with
    | ok r0 =>
      simp [applyUpdate, processingUpdate, completedUpdate] at h
      obtain ⟨rfl, rfl, rfl, rfl, rfl⟩ := h
      simp
    | error msg =>
      simp [applyUpdate, processingUpdate, failedUpdate] at h
      obtain ⟨rfl, rfl, rfl, rfl, rfl⟩ := h
      simp

/-- Claim C5 witness: one job created and completed, then polled. -/
theorem jobs_post_pending_then_terminal_witness :
    (jobsPostHandler true [] "j1" "t0" none (some payloadC)
        (some "base") (.ok "res") "t1").1 = ⟨200, none, some .pending, some "j1"⟩
    ∧ ∀ st res err ca comp,
        getJob true (jobsPostHandler true [] "j1" "t0" none (some payloadC)
            (some "base") (.ok "res") "t1").2.2 "j1" none = .found st res err ca comp →
        (st = .completed → res.isSome = true ∧ err = none)
        ∧ (st = .failed → err.isSome = true ∧ res = none)
        ∧ ¬(res.isSome = true ∧ err.isSome = true) :=
  jobs_post_pending_then_terminal [] "j1" "t0" none payloadC (some "base") (.ok "res")
    "t1" rfl (by decide) (by decide)

/-- A body failing any of the uploads validations is answered with a 400
validation error and no presign attempt. -/
theorem uploadsHandler_invalid (maxBytes : Int) (configured signOk : Bool) (p : UploadBody)
    (hinv : uploadBodyValid maxBytes p = false) :
    ∃ c, uploadsHandler maxBytes configured signOk (some p) = (.badRequest c, false) := by
  rcases p with ⟨k, ct, len⟩
  by_cases hk : k = some "front_image" ∨ k = some "back_image"
  · obtain rfl | rfl := hk
    all_goals
      cases ct with
      | none => exact ⟨.MISSING_REQUIRED_FIELD, by simp [uploadsHandler]⟩
      | some c0 =>
        by_cases hc0 : c0 = ""
        · exact ⟨.MISSING_REQUIRED_FIELD, by simp [uploadsHandler, hc0]⟩
        · by_cases hal : c0 ∈ allowedContentTypes
          · cases len with
            | none => exact ⟨.MISSING_REQUIRED_FIELD, by simp [uploadsHandler, hc0, hal]⟩
            | some n =>
              by_cases hn : n ≤ 0
              · exact ⟨.MISSING_REQUIRED_FIELD, by simp [uploadsHandler, hc0, hal, hn]⟩
              · by_cases hmax : maxBytes < n
                · exact ⟨.INVALID_REQUEST_FORMAT,
                    by simp [uploadsHandler, hc0, hal, hn, hmax]⟩
                · exfalso
                  rw [show uploadBodyValid maxBytes ⟨_, some c0, some n⟩ = true by
                    simp [uploadBodyValid, hal, hc0]
                    omega] at hinv
                  exact absurd hinv (by simp)
          · exact ⟨.INVALID_REQUEST_FORMAT, by simp [uploadsHandler, hc0, hal]⟩
  · obtain ⟨h1, h2⟩ := not_or.mp hk
    exact ⟨.MISSING_REQUIRED_FIELD, by simp [uploadsHandler, h1, h2]⟩

/-- A body passing all validations reaches the configuration check and,
when the store is configured, the presign attempt. -/
theorem uploadsHandler_valid (maxBytes : Int) (configured signOk : Bool) (p : UploadBody)
    (hval : uploadBodyValid maxBytes p = true) :
    uploadsHandler maxBytes configured signOk (some p)
      = if configured then (if signOk then (.success, true) else (.signFailed, true))
        else (.notImplemented, false) := by
  rcases p with ⟨k, ct, len⟩
  cases ct with
  | none => simp [uploadBodyValid] at hval
  | some c0 =>
    cases len with
    | none => simp [uploadBodyValid] at hval
    | some n =>
      simp only [uploadBodyValid, Bool.and_eq_true, Bool.or_eq_true, Bool.not_eq_true',
        beq_iff_eq, beq_eq_false_iff_ne, decide_eq_true_eq] at hval
      obtain ⟨⟨hk, hne, hal⟩, hpos, hle⟩ := hval
      have hn0 : ¬(n ≤ 0) := by omega
      have hmx : ¬(maxBytes < n) := by omega
      have halm : c0 ∈ allowedContentTypes := by simpa using hal
      obtain rfl | rfl := hk <;> cases configured <;> cases signOk <;>
        simp [uploadsHandler, hne, halm, hn0, hmx]

/-- Claim C7: a POST /v1/uploads request with a malformed body, a
disallowed content type or an oversized content_length is answered with a
structured 400 validation error and no presigned credential is requested;
credential issuance is attempted only when every validation passed and
the store is configured. -/
theorem uploads_validation_before_presign (maxBytes : Int) (configured signOk : Bool)
    (body : Option UploadBody) :
    (body = none →
      uploadsHandler maxBytes configured signOk body
        = (.badRequest .INVALID_REQUEST_FORMAT, false))
    ∧ (∀ p, body = some p → uploadBodyValid maxBytes p = false →
        (∃ c, (uploadsHandler maxBytes configured signOk body).1 = .badRequest c)
        ∧ uploadHttpStatus (uploadsHandler maxBytes configured signOk body).1 = 400
        ∧ (uploadsHandler maxBytes configured signOk body).2 = false)
    ∧ ((uploadsHandler maxBytes configured signOk body).2 = true →
        configured = true ∧ ∃ p, body = some p ∧ uploadBodyValid maxBytes p = true) := by
  refine ⟨?_, ?_, ?_⟩
  · intro h
    subst h
    rfl
  · intro p hb hinv
    subst hb
    obtain ⟨c, hc⟩ := uploadsHandler_invalid maxBytes configured signOk p hinv
    rw [hc]
    exact ⟨⟨c, rfl⟩, rfl, rfl⟩
  · intro h2
    cases body with
    | none => simp [uploadsHandler] at h2
    | some p =>
      by_cases hval : uploadBodyValid maxBytes p = true
      · have hv := uploadsHandler_valid maxBytes configured signOk p hval
        cases configured with
        | false =>
          rw [hv] at h2
          simp at h2
        | true => exact ⟨rfl, p, rfl, hval⟩
      · obtain ⟨c, hc⟩ := uploadsHandler_invalid maxBytes configured signOk p
          (Bool.eq_false_iff.mpr hval)
        rw [hc] at h2
        exact absurd h2 (by simp)

/-- Claim C7 witness: an oversized upload request is rejected 400 with no
presign attempt. -/
theorem uploads_validation_before_presign_witness :
    uploadHttpStatus (uploadsHandler 12582912 true true
        (some ⟨some "front_image", some "image/jpeg", some 99999999⟩)).1 = 400
    ∧ (uploadsHandler 12582912 true true
        (some ⟨some "front_image", some "image/jpeg", some 99999999⟩)).2 = false := by
  have h := (uploads_validation_before_presign 12582912 true true
      (some ⟨some "front_image", some "image/jpeg", some 99999999⟩)).2.1
    ⟨some "front_image", some "image/jpeg", some 99999999⟩ rfl (by decide)
  exact ⟨h.2.1, h.2.2⟩

end Pregrade
